import Mathlib

/-!
Verification development for the IP_Backend CRM service (TypeScript/Express/MySQL).

The definitions below are a shallow embedding of the source files:
  src/routes/leads.ts    (lead intake pipeline, listing, patching)
  src/routes/agents.ts   (agent creation, listing, patching, deletion)
  src/routes/auth.ts     (password login, self-profile fetch)
  src/routes/sessions.ts (session creation and projection)
  src/middleware/auth.ts (requireAdminToken, requireAuth)
  src/db.ts              (initDatabase schema, default agent seed)

JavaScript strings are Lean String; `undefined`/`null` optional values are
Option String (none = absent or null; JS truthiness of a string value is
modelled by `truthy`, which is false exactly on none and some ""). MySQL
DATETIME values are modelled as abstract Nat time points. External
collaborators (bcrypt, jsonwebtoken, JSON serialization, uuid, clock) are
parameters of the operations that use them.
-/

namespace IPB

/-- JS truthiness of an optional string: undefined/null and "" are falsy. -/
def truthy : Option String → Bool
  | none => false
  | some s => s != ""

/-- The `row.field || undefined` coercion used by the toCamelCase projections:
null and the empty string both become undefined. -/
def orUndefined : Option String → Option String
  | none => none
  | some s => if s = "" then none else some s

/-- JS String.prototype.trim, character-list model. -/
def jsTrim (s : String) : String :=
  String.mk (((s.toList.dropWhile Char.isWhitespace).reverse.dropWhile Char.isWhitespace).reverse)

/-- The `x?.trim() || null` coercion used when binding INSERT/UPDATE params:
absent stays null, and a value that trims to "" becomes null. -/
def trimOrNull : Option String → Option String
  | none => none
  | some s => if jsTrim s = "" then none else some (jsTrim s)

/-- JS s.startsWith check, over character lists. -/
def jsStartsWith (s p : String) : Bool :=
  p.toList.isPrefixOf s.toList

/-- Does `sub` occur as a contiguous run inside `l`? -/
def containsRun (sub : List Char) : List Char → Bool
  | [] => sub.isPrefixOf []
  | c :: rest => sub.isPrefixOf (c :: rest) || containsRun sub rest

/-- JS s.includes check, over character lists. -/
def jsIncludes (s sub : String) : Bool :=
  containsRun sub.toList s.toList

/-- Remove the first occurrence of `pat` from a character list (none if absent). -/
def removeFirstOcc (pat : List Char) : List Char → Option (List Char)
  | [] => if pat = [] then some [] else none
  | c :: rest =>
      if pat.isPrefixOf (c :: rest) then some ((c :: rest).drop pat.length)
      else (removeFirstOcc pat rest).map (fun t => c :: t)

/-- JS replacement of `pat` by the empty string for a plain-string pattern:
JS replaces only the first occurrence, and the string is returned unchanged
when `pat` is absent. -/
def jsReplaceFirst (s pat : String) : String :=
  match removeFirstOcc pat.toList s.toList with
  | some l => String.mk l
  | none => s

/-- Accumulator-based splitter behind `wsTokens`. -/
def tokensAux : List Char → List Char → List String
  | [], acc => if acc = [] then [] else [String.mk acc.reverse]
  | c :: rest, acc =>
      if c.isWhitespace then
        if acc = [] then tokensAux rest []
        else String.mk acc.reverse :: tokensAux rest []
      else tokensAux rest (c :: acc)

/-- The token list used by parseName — trim, split on whitespace runs, drop
empty pieces — i.e. the maximal runs of non-whitespace characters, in order. -/
def wsTokens (s : String) : List String :=
  tokensAux s.toList []

/-- Joining a token list with single spaces (the JS join used by parseName). -/
def joinSpace (l : List String) : String :=
  String.intercalate " " l

/-- Result shape of parseName in leads.ts. -/
structure ParsedName where
  firstName : String
  lastName : String
  middleName : Option String := none
deriving Repr, DecidableEq

/-- parseName from src/routes/leads.ts: split the full name on whitespace and
distribute the tokens over first/last/middle name. -/
def parseName (fullName : String) : ParsedName :=
  match wsTokens fullName with
  | [] => { firstName := "", lastName := "" }
  | [p] => { firstName := p, lastName := "" }
  | [p, q] => { firstName := p, lastName := q }
  | p :: q :: r :: t =>
      let mid := joinSpace ((q :: r :: t).dropLast)
      { firstName := p
        lastName := (q :: r :: t).getLastD ""
        middleName := if mid = "" then none else some mid }

/-- Result shape of parseContacts in leads.ts. -/
structure ParsedContacts where
  phone : Option String := none
  telegram : Option String := none
deriving Repr, DecidableEq

/-- parseContacts from src/routes/leads.ts: trim, then classify as telegram
when the value starts with "@" or mentions a telegram link, else phone. -/
def parseContacts (contacts : String) : ParsedContacts :=
  let trimmed := jsTrim contacts
  if jsStartsWith trimmed "@" then { telegram := some trimmed }
  else if jsIncludes trimmed "t.me/" || jsIncludes trimmed "telegram.me/" then
    { telegram := some trimmed }
  else { phone := some trimmed }

/-- validatePhone from leads.ts and agents.ts: strip whitespace, hyphens,
parentheses and plus signs; accept iff at least 10 characters remain and all
of them are decimal digits. -/
def validatePhone (phone : String) : Bool :=
  if phone = "" then false
  else
    let cleaned := phone.toList.filter
      (fun c => !(c.isWhitespace || c == '-' || c == '(' || c == ')' || c == '+'))
    decide (10 ≤ cleaned.length) && cleaned.all Char.isDigit

/-- Matcher for the agents.ts email regular expression
`[^ \s @ ]+ at-sign [^ \s @ ]+ dot [^ \s @ ]+` anchored at both ends: exactly one
at-sign, no whitespace, a non-empty local part, and a domain part containing a
dot with non-empty text on both sides. -/
def emailRegexMatch (s : String) : Bool :=
  match s.toList.splitOn '@' with
  | [b, a] =>
      !b.isEmpty && b.all (fun c => !c.isWhitespace) &&
      !a.isEmpty && a.all (fun c => !c.isWhitespace) &&
      (List.range a.length).any
        (fun i => a.getD i ' ' == '.' && decide (1 ≤ i) && decide (i + 2 ≤ a.length))
  | _ => false

/-- validateEmail from agents.ts: an absent/empty email is valid, otherwise
the permissive regular-expression check applies. -/
def validateEmail (email : String) : Bool :=
  if email = "" then true else emailRegexMatch email

/-- JS parseInt(s, 10): skip leading whitespace, read an optional sign and
then the longest digit prefix; none models NaN. -/
def parseIntJS (s : String) : Option Int :=
  let l := s.toList.dropWhile Char.isWhitespace
  let digitsVal : List Char → Nat := fun d => d.foldl (fun n c => n * 10 + (c.toNat - 48)) 0
  match l with
  | '-' :: rest =>
      let d := rest.takeWhile Char.isDigit
      if d = [] then none else some (-(digitsVal d : Int))
  | '+' :: rest =>
      let d := rest.takeWhile Char.isDigit
      if d = [] then none else some ((digitsVal d : Int))
  | _ =>
      let d := l.takeWhile Char.isDigit
      if d = [] then none else some ((digitsVal d : Int))

/-! ## Leads: persisted rows, wire projection, intake, listing -/

/-- A persisted row of the leads table (snake_case, nullable columns as
Option). DATETIME values are abstract Nat time points. -/
structure LeadRow where
  id : String
  source : String
  first_name : String
  last_name : String
  middle_name : Option String := none
  phone : Option String := none
  telegram : Option String := none
  email : Option String := none
  preferred_time : Option String := none
  comment : Option String := none
  id_agent : Option String := none
  status : String
  created_at : Nat
  updated_at : Nat
deriving Repr, DecidableEq

/-- The camelCase wire projection of a lead (optional fields omitted = none). -/
structure LeadResponse where
  id : String
  source : String
  firstName : String
  lastName : String
  middleName : Option String := none
  phone : Option String := none
  telegram : Option String := none
  email : Option String := none
  preferredTime : Option String := none
  comment : Option String := none
  idAgent : Option String := none
  status : String
  createdAt : Nat
  updatedAt : Nat
deriving Repr, DecidableEq

namespace Lead

/-- toCamelCase for leads (src/routes/leads.ts): required columns pass
through, nullable columns go through `row.col || undefined`. -/
def toCamelCase (row : LeadRow) : LeadResponse :=
  { id := row.id
    source := row.source
    firstName := row.first_name
    lastName := row.last_name
    middleName := orUndefined row.middle_name
    phone := orUndefined row.phone
    telegram := orUndefined row.telegram
    email := orUndefined row.email
    preferredTime := orUndefined row.preferred_time
    comment := orUndefined row.comment
    idAgent := orUndefined row.id_agent
    status := row.status
    createdAt := row.created_at
    updatedAt := row.updated_at }

end Lead

/-- The request body of POST /api/leads: legacy fields plus the simplified
`name`/`contacts` pair (all optional at the JSON level). -/
structure LeadInput where
  source : Option String := none
  firstName : Option String := none
  lastName : Option String := none
  middleName : Option String := none
  phone : Option String := none
  email : Option String := none
  preferredTime : Option String := none
  comment : Option String := none
  idAgent : Option String := none
  name : Option String := none
  contacts : Option String := none
  telegram : Option String := none
deriving Repr, DecidableEq

/-- Name resolution step of the POST /api/leads handler: returns the resolved
firstName, lastName, finalMiddleName and the shape error, mirroring the
`if (name) ... else if (oldFirstName && oldLastName) ... else` chain. -/
def leadNameRes (i : LeadInput) : String × String × Option String × List (String × String) :=
  if truthy i.name then
    let parsed := parseName (i.name.getD "")
    let fmn := if truthy parsed.middleName && !truthy i.middleName then parsed.middleName
               else i.middleName
    (parsed.firstName, parsed.lastName, fmn, [])
  else if truthy i.firstName && truthy i.lastName then
    (i.firstName.getD "", i.lastName.getD "", i.middleName, [])
  else
    ("", "", i.middleName,
      [("name", "Name is required (use \"name\" or \"firstName\" + \"lastName\")")])

/-- Contact resolution step of the POST /api/leads handler, mirroring the
`if (contacts) ... else if (directTelegram) ... else if (oldPhone)` chain. -/
def leadContactRes (i : LeadInput) : Option String × Option String :=
  if truthy i.contacts then
    let parsed := parseContacts (i.contacts.getD "")
    (parsed.phone, parsed.telegram)
  else if truthy i.telegram then (none, i.telegram)
  else if truthy i.phone then (i.phone, none)
  else (none, none)

/-- The accumulated `errors` record of the POST /api/leads handler, as an
ordered association list (each key is set at most once). -/
def leadErrors (i : LeadInput) : List (String × String) :=
  let nr := leadNameRes i
  let cr := leadContactRes i
  (if !truthy i.source || jsTrim (i.source.getD "") = "" then
      [("source", "Source is required")] else []) ++
  nr.2.2.2 ++
  (if nr.1 = "" || jsTrim nr.1 = "" then [("firstName", "First name is required")] else []) ++
  (if nr.2.1 = "" || jsTrim nr.2.1 = "" then [("lastName", "Last name is required")] else []) ++
  (if !truthy cr.1 && !truthy cr.2 then
      [("contacts", "Phone or Telegram contact is required")] else []) ++
  (if truthy cr.1 && !validatePhone (cr.1.getD "") then
      [("phone", "Invalid phone format")] else [])

/-- Outcome of the POST /api/leads handler: either HTTP 400 with the full
error mapping, or the row handed to the INSERT statement. -/
inductive LeadCreateResult where
  | badRequest (errors : List (String × String))
  | created (row : LeadRow)
deriving Repr, DecidableEq

/-- POST /api/leads from src/routes/leads.ts: validate/normalize, and on
success build the row bound to the INSERT (id from uuid, status "new",
timestamps storage-assigned, here the parameter `now`). -/
def createLead (i : LeadInput) (newId : String) (now : Nat) : LeadCreateResult :=
  let errs := leadErrors i
  if errs ≠ [] then .badRequest errs
  else
    let nr := leadNameRes i
    let cr := leadContactRes i
    .created
      { id := newId
        source := jsTrim (i.source.getD "")
        first_name := jsTrim nr.1
        last_name := jsTrim nr.2.1
        middle_name := trimOrNull nr.2.2.1
        phone := trimOrNull cr.1
        telegram := trimOrNull cr.2
        email := trimOrNull i.email
        preferred_time := trimOrNull i.preferredTime
        comment := trimOrNull i.comment
        id_agent := trimOrNull i.idAgent
        status := "new"
        created_at := now
        updated_at := now }

/-- The narrow creation acknowledgment returned with HTTP 201. -/
structure LeadAck where
  id : String
  status : String
  createdAt : Nat
deriving Repr, DecidableEq

/-- The endpoint with its table: validation failure leaves the table
unchanged; a successful validation attempts the INSERT (whether the deployed
schema accepts that row is a separate question, see `leadsInsertAccepted`). -/
def leadIntake (table : List LeadRow) (i : LeadInput) (newId : String) (now : Nat) :
    List LeadRow × LeadCreateResult :=
  match createLead i newId now with
  | .badRequest e => (table, .badRequest e)
  | .created r => (table ++ [r], .created r)

/-- Columns of the leads table created by initDatabase in src/db.ts (after
the ALTER that adds id_agent). Note: there is no telegram column, and phone
is declared NOT NULL. -/
def leadsTableColumns : List String :=
  ["id", "source", "first_name", "last_name", "middle_name", "phone", "email",
   "preferred_time", "comment", "id_agent", "status", "created_at", "updated_at"]

/-- Columns named by the INSERT statement of POST /api/leads. -/
def leadsInsertColumns : List String :=
  ["id", "source", "first_name", "last_name", "middle_name", "phone", "telegram",
   "email", "preferred_time", "comment", "id_agent", "status"]

/-- Does the schema of initDatabase accept the INSERT of POST /api/leads for
this row? MySQL rejects the statement when a named column does not exist in
the table, or when a NOT NULL column (phone) receives NULL. -/
def leadsInsertAccepted (r : LeadRow) : Bool :=
  leadsInsertColumns.all (fun c => leadsTableColumns.contains c) && r.phone.isSome

/-- Insertion of one row into a descending-by-created_at list. -/
def insertDesc (r : LeadRow) : List LeadRow → List LeadRow
  | [] => [r]
  | x :: xs => if x.created_at ≤ r.created_at then r :: x :: xs else x :: insertDesc r xs

/-- ORDER BY created_at DESC: a creation-time-descending arrangement of the
rows (insertion sort; any descending arrangement models the clause). -/
def sortByCreatedDesc (l : List LeadRow) : List LeadRow :=
  l.foldr insertDesc []

/-- The optional WHERE filters of GET /api/leads (equality on status and on
id_agent; a NULL id_agent never matches the SQL equality). -/
def leadsFilter (qstatus qidAgent : Option String) (r : LeadRow) : Bool :=
  (if truthy qstatus then r.status == qstatus.getD "" else true) &&
  (if truthy qidAgent then r.id_agent == some (qidAgent.getD "") else true)

/-- The limit handling of the list endpoints: a truthy query value is parsed
with parseInt base 10 and used only when positive. -/
def parseLimit (limit : Option String) : Option Nat :=
  if truthy limit then
    match parseIntJS (limit.getD "") with
    | some n => if 0 < n then some n.toNat else none
    | none => none
  else none

/-- The offset handling of the list endpoints: a truthy query value is parsed
with parseInt base 10 and used only when non-negative. -/
def parseOffset (offset : Option String) : Option Nat :=
  if truthy offset then
    match parseIntJS (offset.getD "") with
    | some n => if 0 ≤ n then some n.toNat else none
    | none => none
  else none

/-- GET /api/leads from src/routes/leads.ts: filter, order by created_at
descending, then apply LIMIT/OFFSET as the handler builds them. MySQL has no
OFFSET clause without LIMIT, so a query with a usable offset but no usable
limit is a syntax error (the route answers 500); that case is `none`. -/
def listLeads (table : List LeadRow) (qstatus qidAgent limit offset : Option String) :
    Option (List LeadResponse) :=
  let sorted := sortByCreatedDesc (table.filter (leadsFilter qstatus qidAgent))
  match parseLimit limit, parseOffset offset with
  | none, none => some (sorted.map Lead.toCamelCase)
  | some l, none => some ((sorted.take l).map Lead.toCamelCase)
  | some l, some o => some (((sorted.drop o).take l).map Lead.toCamelCase)
  | none, some _ => none

/-! ## Agents: persisted rows, wire projection, creation -/

/-- A persisted row of the agents table (referral_links holds the JSON text). -/
structure AgentRow where
  id : String
  first_name : String
  last_name : String
  middle_name : Option String := none
  phone : String
  email : Option String := none
  login : Option String := none
  password_hash : Option String := none
  website : Option String := none
  telegram_channel : Option String := none
  telegram_bot : Option String := none
  city : Option String := none
  bank_details : Option String := none
  referral_links : Option String := none
  created_at : Nat
  updated_at : Nat
deriving Repr, DecidableEq

/-- The camelCase wire projection of an agent. -/
structure AgentResponse where
  id : String
  firstName : String
  lastName : String
  middleName : Option String := none
  phone : String
  email : Option String := none
  login : Option String := none
  website : Option String := none
  telegramChannel : Option String := none
  telegramBot : Option String := none
  city : Option String := none
  bankDetails : Option String := none
  referralLinks : Option (List String) := none
  createdAt : Nat
  updatedAt : Nat
deriving Repr, DecidableEq

namespace Agent

/-- toCamelCase for agents (src/routes/agents.ts). `parse` models JSON.parse
on the stored referral_links text; a parse failure yields the empty list. -/
def toCamelCase (parse : String → Option (List String)) (row : AgentRow) : AgentResponse :=
  { id := row.id
    firstName := row.first_name
    lastName := row.last_name
    middleName := orUndefined row.middle_name
    phone := row.phone
    email := orUndefined row.email
    login := orUndefined row.login
    website := orUndefined row.website
    telegramChannel := orUndefined row.telegram_channel
    telegramBot := orUndefined row.telegram_bot
    city := orUndefined row.city
    bankDetails := orUndefined row.bank_details
    referralLinks :=
      match row.referral_links with
      | none => none
      | some s => if s = "" then none else some ((parse s).getD [])
    createdAt := row.created_at
    updatedAt := row.updated_at }

end Agent

/-- The request body of POST /api/agents. referralLinks is typed as a list
here, so the Array.isArray check of the handler cannot fail in this model. -/
structure AgentInput where
  firstName : Option String := none
  lastName : Option String := none
  middleName : Option String := none
  phone : Option String := none
  email : Option String := none
  login : Option String := none
  password : Option String := none
  website : Option String := none
  telegramChannel : Option String := none
  telegramBot : Option String := none
  city : Option String := none
  bankDetails : Option String := none
  referralLinks : Option (List String) := none
deriving Repr, DecidableEq

/-- The accumulated `errors` record of the POST /api/agents handler,
including the advisory login pre-check against the current table. -/
def agentErrors (db : List AgentRow) (i : AgentInput) : List (String × String) :=
  (if !truthy i.firstName || jsTrim (i.firstName.getD "") = "" then
      [("firstName", "First name is required")] else []) ++
  (if !truthy i.lastName || jsTrim (i.lastName.getD "") = "" then
      [("lastName", "Last name is required")] else []) ++
  (if !truthy i.phone || jsTrim (i.phone.getD "") = "" then
      [("phone", "Phone is required")]
   else if !validatePhone (i.phone.getD "") then
      [("phone", "Invalid phone format")] else []) ++
  (if truthy i.email && !validateEmail (i.email.getD "") then
      [("email", "Invalid email format")] else []) ++
  (if truthy i.login && db.any (fun a => a.login == some (jsTrim (i.login.getD ""))) then
      [("login", "Login already exists")] else [])

/-- Validation outcome of POST /api/agents: HTTP 400 with the error mapping,
or the row handed to the INSERT statement. -/
inductive CreateAgentResult where
  | badRequest (errors : List (String × String))
  | created (row : AgentRow)
deriving Repr, DecidableEq

/-- POST /api/agents handler from src/routes/agents.ts: validate, hash the
password when present, serialize referralLinks (omitted when empty), and
build the row for the INSERT. `hash` models bcrypt.hash, `serialize` models
JSON.stringify, `newId` the uuid, `now` the explicit timestamp. -/
def createAgent (hash : String → String) (serialize : List String → String)
    (db : List AgentRow) (i : AgentInput) (newId : String) (now : Nat) : CreateAgentResult :=
  let errs := agentErrors db i
  if errs ≠ [] then .badRequest errs
  else
    .created
      { id := newId
        first_name := jsTrim (i.firstName.getD "")
        last_name := jsTrim (i.lastName.getD "")
        middle_name := trimOrNull i.middleName
        phone := jsTrim (i.phone.getD "")
        email := trimOrNull i.email
        login := trimOrNull i.login
        password_hash :=
          match i.password with
          | none => none
          | some p => if p = "" then none else some (hash p)
        website := trimOrNull i.website
        telegram_channel := trimOrNull i.telegramChannel
        telegram_bot := trimOrNull i.telegramBot
        city := trimOrNull i.city
        bank_details := trimOrNull i.bankDetails
        referral_links :=
          match i.referralLinks with
          | none => none
          | some ls => if 0 < ls.length then some (serialize ls) else none
        created_at := now
        updated_at := now }

/-- The storage-level UNIQUE constraint on agents.login: the INSERT is
rejected (none) when a row with the same non-null login already exists. -/
def insertAgent (db : List AgentRow) (r : AgentRow) : Option (List AgentRow) :=
  match r.login with
  | some l => if db.any (fun a => a.login == some l) then none else some (db ++ [r])
  | none => some (db ++ [r])

/-- Observable outcome of POST /api/agents (serverError models the 500 path,
reached when the INSERT violates the UNIQUE constraint under the pre-check
race; sequentially the pre-check makes it unreachable). -/
inductive AgentsPostOutcome where
  | badRequest (errors : List (String × String))
  | created (row : AgentRow)
  | serverError
deriving Repr, DecidableEq

/-- POST /api/agents as actually wired: server.ts mounts the agents router
with `app.use` and the router registers the handler with no middleware, so
the admin-token gate parameters are received but never consulted. Returns
the table after the call together with the response. -/
def agentsCreatePOST (_adminToken _xAdminToken _authHeader : Option String)
    (hash : String → String) (serialize : List String → String)
    (db : List AgentRow) (i : AgentInput) (newId : String) (now : Nat) :
    List AgentRow × AgentsPostOutcome :=
  match createAgent hash serialize db i newId now with
  | .badRequest e => (db, .badRequest e)
  | .created r =>
      match insertAgent db r with
      | some db2 => (db2, .created r)
      | none => (db, .serverError)

/-! ## Middleware: admin-token gate and bearer-token verification -/

/-- Outcome of the requireAdminToken middleware. -/
inductive AdminGate where
  | unauthorized (msg : String)
  | proceed
deriving Repr, DecidableEq

/-- requireAdminToken from src/middleware/auth.ts: open gate when no secret
is configured; otherwise the X-Admin-Token header, or failing that the
Authorization header with its first "Bearer " removed, must equal the secret. -/
def requireAdminToken (adminToken xAdminToken authHeader : Option String) : AdminGate :=
  if !truthy adminToken then .proceed
  else
    let secret := adminToken.getD ""
    let token : Option String :=
      match xAdminToken with
      | some t => if t = "" then authHeader.map (fun h => jsReplaceFirst h "Bearer ")
                  else some t
      | none => authHeader.map (fun h => jsReplaceFirst h "Bearer ")
    match token with
    | none => .unauthorized "Unauthorized. Admin token required."
    | some t =>
        if t = "" then .unauthorized "Unauthorized. Admin token required."
        else if t = secret then .proceed
        else .unauthorized "Unauthorized. Admin token required."

/-- The claims the login endpoint signs into a JWT. -/
structure JwtClaims where
  id : String
  login : Option String
  firstName : String
  lastName : String
deriving Repr, DecidableEq

/-- Outcome of the requireAuth middleware. -/
inductive AuthGate where
  | unauthorized (msg : String)
  | proceed (agentId : String)
deriving Repr, DecidableEq

/-- requireAuth from src/middleware/auth.ts: demand a "Bearer "-prefixed
Authorization header, verify the token (`jwtVerify` models jwt.verify, none
= invalid or expired), and expose the decoded agent id. -/
def requireAuth (jwtVerify : String → Option JwtClaims) (authHeader : Option String) : AuthGate :=
  match authHeader with
  | none => .unauthorized "Authorization token required"
  | some h =>
      if !jsStartsWith h "Bearer " then .unauthorized "Authorization token required"
      else
        match jwtVerify (jsReplaceFirst h "Bearer ") with
        | none => .unauthorized "Invalid or expired token"
        | some claims => .proceed claims.id

/-! ## Auth routes: login and self-profile -/

/-- The sanitized agent profile returned by POST /api/auth/login. -/
structure LoginAgentView where
  id : String
  firstName : String
  lastName : String
  middleName : Option String := none
  email : Option String := none
  phone : String
  login : Option String := none
deriving Repr, DecidableEq

/-- Outcome of POST /api/auth/login; the token is modelled by its claims. -/
inductive LoginResult where
  | badRequest (msg : String)
  | unauthorized (msg : String)
  | ok (claims : JwtClaims) (agent : LoginAgentView)
deriving Repr, DecidableEq

/-- The credential lookup of the login handler: first agent whose login,
email or phone equals the supplied identifier (SQL equality; NULL columns
never match). -/
def authLookup (db : List AgentRow) (l : String) : Option AgentRow :=
  db.find? (fun a => a.login == some l || a.email == some l || a.phone == l)

/-- POST /api/auth/login from src/routes/auth.ts. `verify` models
bcrypt.compare. A falsy stored hash short-circuits with its own message
before the password is ever compared. -/
def login (verify : String → String → Bool) (db : List AgentRow) (l p : String) : LoginResult :=
  if l = "" || p = "" then .badRequest "Login and password are required"
  else
    match authLookup db l with
    | none => .unauthorized "Invalid login or password"
    | some agent =>
        match agent.password_hash with
        | none => .unauthorized "Password not set for this agent"
        | some h =>
            if h = "" then .unauthorized "Password not set for this agent"
            else if verify p h then
              .ok { id := agent.id, login := agent.login, firstName := agent.first_name,
                    lastName := agent.last_name }
                 { id := agent.id, firstName := agent.first_name, lastName := agent.last_name,
                   middleName := orUndefined agent.middle_name,
                   email := orUndefined agent.email, phone := agent.phone,
                   login := orUndefined agent.login }
            else .unauthorized "Invalid login or password"

/-- The extended profile returned by GET /api/auth/me. -/
structure MeProfile where
  id : String
  firstName : String
  lastName : String
  middleName : Option String := none
  email : Option String := none
  phone : String
  login : Option String := none
  city : Option String := none
  website : Option String := none
  telegramChannel : Option String := none
  telegramBot : Option String := none
  bankDetails : Option String := none
  referralLinks : Option (List String) := none
deriving Repr, DecidableEq

/-- Observable outcome of GET /api/auth/me. -/
inductive MeResult where
  | unauthorized (msg : String)
  | notFound
  | ok (profile : MeProfile)
  | serverError
deriving Repr, DecidableEq

/-- The GET /api/auth/me handler body from src/routes/auth.ts, given the
`req.agentId` value a middleware may have set. When agentId was never set,
dbGet receives an undefined bind parameter, mysql2 throws, and the catch
block answers 500 (serverError). -/
def meHandler (parse : String → Option (List String)) (db : List AgentRow)
    (agentId : Option String) : MeResult :=
  match agentId with
  | none => .serverError
  | some aid =>
      match db.find? (fun a => a.id == aid) with
      | none => .notFound
      | some a =>
          .ok { id := a.id, firstName := a.first_name, lastName := a.last_name,
                middleName := orUndefined a.middle_name, email := orUndefined a.email,
                phone := a.phone, login := orUndefined a.login,
                city := orUndefined a.city, website := orUndefined a.website,
                telegramChannel := orUndefined a.telegram_channel,
                telegramBot := orUndefined a.telegram_bot,
                bankDetails := orUndefined a.bank_details,
                referralLinks :=
                  match a.referral_links with
                  | none => none
                  | some s => if s = "" then none else some ((parse s).getD []) }

/-- GET /api/auth/me as actually wired: server.ts mounts the auth router with
`app.use('/api/auth', authRouter)` and the router registers the handler with
no middleware, so requireAuth never runs and req.agentId is never set,
whatever Authorization header the request carries. -/
def meGET (parse : String → Option (List String)) (db : List AgentRow)
    (_authHeader : Option String) : MeResult :=
  meHandler parse db none

/-! ## Sessions: persisted rows and wire projection -/

/-- A persisted row of the sessions table. -/
structure SessionRow where
  id : String
  id_agent : String
  id_lead : Option String := none
  context_ai : Option String := none
  ai_response : Option String := none
  status : String
  created_at : Nat
  updated_at : Nat
deriving Repr, DecidableEq

/-- The camelCase wire projection of a session. -/
structure SessionResponse where
  id : String
  idAgent : String
  idLead : Option String := none
  contextAi : Option String := none
  aiResponse : Option String := none
  status : String
  createdAt : Nat
  updatedAt : Nat
deriving Repr, DecidableEq

namespace Session

/-- toCamelCase for sessions (src/routes/sessions.ts). -/
def toCamelCase (row : SessionRow) : SessionResponse :=
  { id := row.id
    idAgent := row.id_agent
    idLead := orUndefined row.id_lead
    contextAi := orUndefined row.context_ai
    aiResponse := orUndefined row.ai_response
    status := row.status
    createdAt := row.created_at
    updatedAt := row.updated_at }

end Session

/-! ## Specification-side helpers and concrete fixtures -/

/-- Does the error mapping carry an entry for this field? -/
def hasKey (errors : List (String × String)) (k : String) : Bool :=
  errors.any (fun p => p.1 == k)

/-- The omit-when-null-or-empty contract between a stored nullable column and
its wire projection: the projection is absent exactly when the stored value
is NULL or the empty string, and a present projection is the stored value. -/
def OmitsEmpty (stored proj : Option String) : Prop :=
  (proj = none ↔ stored = none ∨ stored = some "") ∧
  ∀ s, proj = some s → stored = some s ∧ s ≠ ""

/-- Descending creation-time order between two lead rows. -/
def createdGe (a b : LeadRow) : Prop :=
  b.created_at ≤ a.created_at

instance : DecidableRel createdGe := fun a b => Nat.decLe b.created_at a.created_at

/-- The C1 request of the spec: simplified shape, telegram contact. -/
def c1Input : LeadInput :=
  { source := some "consultation", name := some "Иван Иванович Иванов",
    contacts := some "@ivanov" }

/-- The row POST /api/leads binds to its INSERT for `c1Input`. -/
def c1Row : LeadRow :=
  { id := "L1", source := "consultation", first_name := "Иван", last_name := "Иванов",
    middle_name := some "Иванович", telegram := some "@ivanov", status := "new",
    created_at := 7, updated_at := 7 }

/-- A valid agent-create body carrying no admin credential. -/
def c2Input : AgentInput :=
  { firstName := some "Ирина", lastName := some "Ким", phone := some "79990001122" }

/-- The agent row persisted for `c2Input` (id "A1", time 0, identity hash). -/
def c2Row : AgentRow :=
  { id := "A1", first_name := "Ирина", last_name := "Ким", phone := "79990001122",
    created_at := 0, updated_at := 0 }

/-- An agent on file for the /me scenarios. -/
def c3Agent : AgentRow :=
  { id := "AG1", first_name := "Олег", last_name := "Ким", phone := "79990001122",
    created_at := 0, updated_at := 0 }

/-- A jwt.verify model accepting exactly the token "good" for `c3Agent`. -/
def c3Verify : String → Option JwtClaims :=
  fun t => if t = "good" then some { id := "AG1", login := none, firstName := "Олег", lastName := "Ким" } else none

/-- An agent with a login but no stored password hash. -/
def c4Agent : AgentRow :=
  { id := "A4", first_name := "Ирина", last_name := "Соколова", phone := "79990001122",
    login := some "admin", password_hash := none, created_at := 0, updated_at := 0 }

/-- A lead-create body supplying both shapes at once for every contested
logical field. -/
def c5Input : LeadInput :=
  { source := some "c", firstName := some "X", lastName := some "Y",
    phone := some "+7 999 000-11-22", name := some "Анна Петрова",
    contacts := some "@handle" }

/-- The row POST /api/leads binds to its INSERT for `c5Input`. -/
def c5Row : LeadRow :=
  { id := "L1", source := "c", first_name := "Анна", last_name := "Петрова",
    telegram := some "@handle", status := "new", created_at := 0, updated_at := 0 }

/-- The n-th inserted lead of the C6 scenario (created at time n). -/
def c6Row (n : Nat) : LeadRow :=
  { id := "L" ++ toString n, source := "web", first_name := "Анна", last_name := "Ли",
    phone := some "79990001122", status := "new", created_at := n, updated_at := n }

/-- Five leads, inserted in the order c6Row 1 .. c6Row 5 (5 is newest). -/
def c6Table : List LeadRow :=
  [c6Row 1, c6Row 2, c6Row 3, c6Row 4, c6Row 5]

/-- An agent-create body with login "admin". -/
def c7Input : AgentInput :=
  { firstName := some "Анна", lastName := some "Иванова", phone := some "79990001122",
    login := some "admin" }

/-- The agent row persisted for `c7Input` (id "id1", time 0, identity hash). -/
def c7Row : AgentRow :=
  { id := "id1", first_name := "Анна", last_name := "Иванова", phone := "79990001122",
    login := some "admin", created_at := 0, updated_at := 0 }

/-- A lead row with a telegram contact and assorted empty/null columns. -/
def c10Lead : LeadRow :=
  { id := "L9", source := "web", first_name := "Анна", last_name := "Ли",
    middle_name := some "", telegram := some "@x", status := "new",
    created_at := 3, updated_at := 4 }

/-- An agent row with empty-string and null optional columns. -/
def c10Agent : AgentRow :=
  { id := "A9", first_name := "Олег", last_name := "Ли", phone := "79990001122",
    email := some "", city := some "Москва", referral_links := some "",
    created_at := 5, updated_at := 6 }

/-- A session row with a null lead reference and empty ai_response. -/
def c10Session : SessionRow :=
  { id := "S9", id_agent := "A9", context_ai := some "ctx", ai_response := some "",
    status := "active", created_at := 7, updated_at := 8 }

/-! ## Helper lemmas -/

theorem orUndefined_omits (v : Option String) : OmitsEmpty v (orUndefined v) := by
  constructor
  · cases v with
    | none => simp [orUndefined]
    | some s =>
        by_cases h : s = "" <;> simp [orUndefined, h]
  · intro s hs
    cases v with
    | none => simp [orUndefined] at hs
    | some t =>
        by_cases h : t = "" <;> simp [orUndefined, h] at hs
        subst hs
        exact ⟨rfl, h⟩

theorem insertDesc_perm (r : LeadRow) (l : List LeadRow) :
    (insertDesc r l).Perm (r :: l) := by
  induction l with
  | nil => simp [insertDesc]
  | cons x xs ih =>
      by_cases h : x.created_at ≤ r.created_at
      · simp [insertDesc, h]
      · simp only [insertDesc, h, if_neg, if_false]
        exact (ih.cons x).trans (List.Perm.swap r x xs)

theorem sortByCreatedDesc_perm (l : List LeadRow) :
    (sortByCreatedDesc l).Perm l := by
  induction l with
  | nil => simp [sortByCreatedDesc]
  | cons x xs ih =>
      have : sortByCreatedDesc (x :: xs) = insertDesc x (sortByCreatedDesc xs) := rfl
      rw [this]
      exact (insertDesc_perm x (sortByCreatedDesc xs)).trans (ih.cons x)

theorem insertDesc_sorted (r : LeadRow) (l : List LeadRow)
    (h : l.Pairwise createdGe) : (insertDesc r l).Pairwise createdGe := by
  induction l with
  | nil => simp [insertDesc, List.pairwise_cons]
  | cons x xs ih =>
      rw [List.pairwise_cons] at h
      by_cases hc : x.created_at ≤ r.created_at
      · simp only [insertDesc, hc, if_pos]
        rw [List.pairwise_cons]
        refine ⟨?_, List.pairwise_cons.mpr h⟩
        intro b hb
        rcases List.mem_cons.mp hb with hb | hb
        · subst hb; exact hc
        · exact Nat.le_trans (h.1 b hb) hc
      · simp only [insertDesc, hc, if_neg, if_false]
        rw [List.pairwise_cons]
        refine ⟨?_, ih h.2⟩
        intro b hb
        have : b ∈ r :: xs := (insertDesc_perm r xs).mem_iff.mp hb
        rcases List.mem_cons.mp this with hb | hb
        · subst hb
          exact Nat.le_of_lt (Nat.lt_of_not_le hc)
        · exact h.1 b hb

theorem sortByCreatedDesc_sorted (l : List LeadRow) :
    (sortByCreatedDesc l).Pairwise createdGe := by
  induction l with
  | nil => simp [sortByCreatedDesc]
  | cons x xs ih => exact insertDesc_sorted x (sortByCreatedDesc xs) ih

/-! ## Claim theorems -/

/-- C1: the lead-create request (source "consultation", name "Иван Иванович
Иванов", contacts "@ivanov") passes validation and is normalized exactly as
the spec says (firstName "Иван", lastName "Иванов", middleName "Иванович",
telegram "@ivanov", no phone, status "new") — but the INSERT built from it is
rejected by the schema initDatabase creates: the leads table has no telegram
column and declares phone NOT NULL while this row binds NULL for it, so the
insertion cannot succeed and no lead is persisted (the route answers 500).
The claim is right about the intended behaviour; the schema in src/db.ts
contradicts the route code and is the bug. -/
theorem C1_telegram_lead_insert_rejected_by_schema :
    createLead c1Input "L1" 7 = .created c1Row ∧
    c1Row.first_name = "Иван" ∧ c1Row.last_name = "Иванов" ∧
    c1Row.middle_name = some "Иванович" ∧ c1Row.telegram = some "@ivanov" ∧
    c1Row.phone = none ∧ c1Row.status = "new" ∧
    leadsInsertColumns.contains "telegram" = true ∧
    leadsTableColumns.contains "telegram" = false ∧
    leadsInsertAccepted c1Row = false := by
  decide

/-- C2: with an admin secret configured and no credential on the request,
POST /api/agents still creates and persists the agent, because server.ts and
the agents router never attach requireAdminToken to the route — even though
the middleware itself (later conjuncts) would have rejected exactly this
request and admits the documented credentials, as its own doc comment
promises. The claim describes the middleware faithfully; the missing wiring
is the code bug. -/
theorem C2_admin_gate_not_attached :
    agentsCreatePOST (some "secret") none none (fun p => p) (fun _ => "") [] c2Input "A1" 0 =
      ([c2Row], .created c2Row) ∧
    requireAdminToken (some "secret") none none =
      .unauthorized "Unauthorized. Admin token required." ∧
    requireAdminToken (some "secret") (some "wrong") none =
      .unauthorized "Unauthorized. Admin token required." ∧
    requireAdminToken (some "secret") (some "secret") none = .proceed ∧
    requireAdminToken (some "secret") none (some "Bearer secret") = .proceed ∧
    requireAdminToken none none none = .proceed := by
  decide

/-- C3: GET /api/auth/me answers 500 for every request — with no token and
with a valid one alike — because the auth router registers the handler
without requireAuth, so req.agentId is never set and dbGet receives an
undefined bind parameter. The middleware itself (later conjuncts) implements
exactly the claimed uniform 401 behaviour and hands the verified id to the
handler, which then serves the profile or 404; only the wiring is missing,
contradicting the handler comment that the token was checked by requireAuth. -/
theorem C3_me_route_not_protected :
    meGET (fun _ => none) [c3Agent] none = .serverError ∧
    meGET (fun _ => none) [c3Agent] (some "Bearer good") = .serverError ∧
    requireAuth c3Verify none = .unauthorized "Authorization token required" ∧
    requireAuth c3Verify (some "good") = .unauthorized "Authorization token required" ∧
    requireAuth c3Verify (some "Bearer bad") = .unauthorized "Invalid or expired token" ∧
    requireAuth c3Verify (some "Bearer good") = .proceed "AG1" ∧
    meHandler (fun _ => none) [c3Agent] (some "AG1") =
      .ok { id := "AG1", firstName := "Олег", lastName := "Ким", phone := "79990001122" } ∧
    meHandler (fun _ => none) [c3Agent] (some "AG9") = .notFound := by
  decide

/-- C4 counterexample: the three login-failure cases are not observably
identical. With the same wrong password, a nonexistent account gets the
generic message while an existing account without a stored hash gets a
distinct "Password not set for this agent" message, so the outcome reveals
which case occurred. -/
theorem C4_counterexample_distinct_messages :
    login (fun _ _ => false) [c4Agent] "admin" "pw" =
      .unauthorized "Password not set for this agent" ∧
    login (fun _ _ => false) [c4Agent] "ghost" "pw" =
      .unauthorized "Invalid login or password" ∧
    LoginResult.unauthorized "Password not set for this agent" ≠
      LoginResult.unauthorized "Invalid login or password" := by
  decide

/-- C4 amended: every credential failure is rejected 401, and the missing
account and failed password-comparison cases share the identical generic
message; but an account whose stored hash is NULL (or empty) is rejected
with its own distinct message before the password is compared. -/
theorem C4_login_failure_modes (verify : String → String → Bool)
    (db : List AgentRow) (l p : String) (hl : l ≠ "") (hp : p ≠ "") :
    (authLookup db l = none →
      login verify db l p = .unauthorized "Invalid login or password") ∧
    (∀ a, authLookup db l = some a → (a.password_hash = none ∨ a.password_hash = some "") →
      login verify db l p = .unauthorized "Password not set for this agent") ∧
    (∀ a h, authLookup db l = some a → a.password_hash = some h → h ≠ "" →
      verify p h = false →
      login verify db l p = .unauthorized "Invalid login or password") := by
  refine ⟨?_, ?_, ?_⟩
  · intro hnone
    simp [login, hl, hp, hnone]
  · intro a ha hhash
    rcases hhash with hh | hh <;> simp [login, hl, hp, ha, hh]
  · intro a h ha hh hne hv
    simp [login, hl, hp, ha, hh, hne, hv]

/-- C4 witness: the amended theorem applied at a concrete store holding only
`c4Agent` (login "admin", no stored hash) and at a rejecting comparator. -/
theorem C4_login_failure_modes_witness :
    login (fun _ _ => false) [c4Agent] "ghost" "pw" =
      .unauthorized "Invalid login or password" ∧
    login (fun _ _ => false) [c4Agent] "admin" "pw" =
      .unauthorized "Password not set for this agent" :=
  ⟨(C4_login_failure_modes (fun _ _ => false) [c4Agent] "ghost" "pw"
      (by decide) (by decide)).1 (by decide),
   (C4_login_failure_modes (fun _ _ => false) [c4Agent] "admin" "pw"
      (by decide) (by decide)).2.1 c4Agent (by decide) (Or.inl (by decide))⟩

/-- C5 counterexample: when both shapes supply the same logical field, the
simplified shape wins, not the legacy one. With firstName "X", lastName "Y"
and phone "+7 999 000-11-22" supplied alongside name "Анна Петрова" and
contacts "@handle", the row built for the INSERT carries the parsed name and
the parsed contact, and the legacy values are ignored. -/
theorem C5_counterexample_legacy_loses :
    createLead c5Input "L1" 0 = .created c5Row ∧
    c5Row.first_name = "Анна" ∧ c5Row.last_name = "Петрова" ∧
    c5Row.phone = none ∧ c5Row.telegram = some "@handle" ∧
    ¬(c5Row.first_name = "X" ∧ c5Row.last_name = "Y") ∧
    c5Row.phone ≠ some "+7 999 000-11-22" := by
  decide

/-- C6 counterexample: after five leads (created at times 1..5), listing with
limit=2 and offset=1 returns the 2nd and 3rd most-recently-created leads
(times 4 and 3), not the 3rd and 4th most recent (times 3 and 2) as the
claim states. -/
theorem C6_counterexample_offset_window :
    listLeads c6Table none none (some "2") (some "1") =
      some [Lead.toCamelCase (c6Row 4), Lead.toCamelCase (c6Row 3)] ∧
    some [Lead.toCamelCase (c6Row 4), Lead.toCamelCase (c6Row 3)] ≠
      some [Lead.toCamelCase (c6Row 3), Lead.toCamelCase (c6Row 2)] := by
  decide

/-- C5 amended: the simplified shape takes precedence. Whenever a truthy
`name` and a truthy `contacts` are supplied, the outcome of lead creation is
identical to the outcome with the legacy firstName/lastName/phone/telegram
fields erased: the parsed name wins over explicit firstName+lastName and the
parsed contacts wins over explicit phone/telegram (legacy middleName, by
contrast, still wins over the middle name parsed out of `name`). -/
theorem C5_simplified_shape_precedence (i : LeadInput) (newId : String) (now : Nat)
    (hn : truthy i.name = true) (hc : truthy i.contacts = true) :
    createLead i newId now =
      createLead
        { i with firstName := none, lastName := none, phone := none, telegram := none }
        newId now := by
  simp [createLead, leadErrors, leadNameRes, leadContactRes, hn, hc]

/-- C5 witness: the precedence theorem applied to the contested input. -/
theorem C5_simplified_shape_precedence_witness :
    createLead c5Input "L1" 0 =
      createLead
        { c5Input with firstName := none, lastName := none, phone := none, telegram := none }
        "L1" 0 :=
  C5_simplified_shape_precedence c5Input "L1" 0 (by decide) (by decide)

/-- C6 amended: with a usable limit (positive integer) and a usable offset
(non-negative integer), the listing is the creation-time-descending
arrangement of the table with `offset` rows skipped and `limit` rows taken —
so limit=2, offset=1 over five leads yields the 2nd and 3rd most recent; the
arrangement is sorted descending by creation time and is a permutation of
the table. -/
theorem C6_list_window (table : List LeadRow) (ls os : String) (l o : Nat)
    (hl : parseLimit (some ls) = some l) (ho : parseOffset (some os) = some o) :
    listLeads table none none (some ls) (some os) =
      some ((((sortByCreatedDesc table).drop o).take l).map Lead.toCamelCase) ∧
    (sortByCreatedDesc table).Pairwise createdGe ∧
    (sortByCreatedDesc table).Perm table := by
  refine ⟨?_, sortByCreatedDesc_sorted table, sortByCreatedDesc_perm table⟩
  have hf : table.filter (leadsFilter none none) = table := by
    simp [List.filter_eq_self, leadsFilter, truthy]
  simp [listLeads, hl, ho, hf]

/-- C6 witness: the window theorem applied to the five-lead scenario with
limit "2" and offset "1". -/
theorem C6_list_window_witness :
    listLeads c6Table none none (some "2") (some "1") =
      some ((((sortByCreatedDesc c6Table).drop 1).take 2).map Lead.toCamelCase) ∧
    (sortByCreatedDesc c6Table).Pairwise createdGe ∧
    (sortByCreatedDesc c6Table).Perm c6Table :=
  C6_list_window c6Table "2" "1" 2 1 (by decide) (by decide)

theorem createAgent_created_inv (hash : String → String) (serialize : List String → String)
    (db : List AgentRow) (i : AgentInput) (newId : String) (now : Nat) (r : AgentRow)
    (h : createAgent hash serialize db i newId now = .created r) :
    agentErrors db i = [] ∧ r.login = trimOrNull i.login := by
  simp only [createAgent] at h
  by_cases he : agentErrors db i = []
  · rw [if_neg (not_not_intro he)] at h
    cases h
    exact ⟨he, rfl⟩
  · rw [if_pos he] at h
    simp at h

theorem insertAgent_some (db : List AgentRow) (r : AgentRow) (db2 : List AgentRow)
    (h : insertAgent db r = some db2) : db2 = db ++ [r] := by
  simp only [insertAgent] at h
  split at h
  · split at h
    · cases h
    · exact (Option.some.inj h).symm
  · exact (Option.some.inj h).symm

theorem agentsCreatePOST_created_inv (g1 g2 g3 : Option String)
    (hash : String → String) (serialize : List String → String)
    (db : List AgentRow) (i : AgentInput) (newId : String) (now : Nat)
    (db1 : List AgentRow) (r1 : AgentRow)
    (h : agentsCreatePOST g1 g2 g3 hash serialize db i newId now = (db1, .created r1)) :
    createAgent hash serialize db i newId now = .created r1 ∧ db1 = db ++ [r1] := by
  simp only [agentsCreatePOST] at h
  split at h
  · simp at h
  · rename_i r heq
    split at h
    · rename_i db2 heq2
      simp at h
      obtain ⟨hdb, hr⟩ := h
      subst hdb
      subst hr
      exact ⟨heq, insertAgent_some db _ _ heq2⟩
    · simp at h

/-- C7: login uniqueness is enforced sequentially. If the table has no agent
with the (trimmed) login yet and a first create request with that login
succeeds, then any second create request with the same non-null login fails
with the "Login already exists" error on the login field, the table is left
unchanged by the second request, and exactly one agent with that login
exists afterwards — for either ordering, since the two requests are
arbitrary. -/
theorem C7_login_uniqueness (g1 g2 g3 g4 g5 g6 : Option String)
    (hash : String → String) (serialize : List String → String)
    (db db1 : List AgentRow) (i1 i2 : AgentInput) (id1 id2 : String) (t1 t2 : Nat)
    (l1 l2 : String) (r1 : AgentRow)
    (h1 : i1.login = some l1) (h2 : i2.login = some l2)
    (hl2 : l2 ≠ "") (htr : jsTrim l1 = jsTrim l2) (htrne : jsTrim l1 ≠ "")
    (hfresh : ∀ a ∈ db, a.login ≠ some (jsTrim l1))
    (hfirst : agentsCreatePOST g1 g2 g3 hash serialize db i1 id1 t1 = (db1, .created r1)) :
    agentsCreatePOST g4 g5 g6 hash serialize db1 i2 id2 t2 =
      (db1, .badRequest (agentErrors db1 i2)) ∧
    ("login", "Login already exists") ∈ agentErrors db1 i2 ∧
    hasKey (agentErrors db1 i2) "login" = true ∧
    db1.countP (fun a => a.login == some (jsTrim l1)) = 1 := by
  obtain ⟨hca, hdb1⟩ :=
    agentsCreatePOST_created_inv g1 g2 g3 hash serialize db i1 id1 t1 db1 r1 hfirst
  obtain ⟨-, hlog⟩ := createAgent_created_inv hash serialize db i1 id1 t1 r1 hca
  have hr1login : r1.login = some (jsTrim l1) := by
    rw [hlog, h1]
    simp [trimOrNull, htrne]
  have hany : db1.any (fun a => a.login == some (jsTrim (i2.login.getD ""))) = true := by
    rw [h2, hdb1]
    simp only [Option.getD_some, List.any_append]
    have : r1.login == some (jsTrim l2) := by rw [hr1login, htr]; simp
    simp [this]
  have htl2 : truthy i2.login = true := by rw [h2]; simp [truthy, hl2]
  have hmem : ("login", "Login already exists") ∈ agentErrors db1 i2 := by
    unfold agentErrors
    simp [htl2, hany]
  have hne : agentErrors db1 i2 ≠ [] := List.ne_nil_of_mem hmem
  have hcba : createAgent hash serialize db1 i2 id2 t2 = .badRequest (agentErrors db1 i2) := by
    simp only [createAgent]
    rw [if_pos hne]
  refine ⟨?_, hmem, ?_, ?_⟩
  · simp only [agentsCreatePOST]
    rw [hcba]
  · unfold hasKey
    rw [List.any_eq_true]
    exact ⟨_, hmem, by simp⟩
  · rw [hdb1, List.countP_append]
    have h0 : db.countP (fun a => a.login == some (jsTrim l1)) = 0 := by
      rw [List.countP_eq_zero]
      intro a ha
      simp [hfresh a ha]
    rw [h0]
    simp [List.countP_cons, hr1login]

/-- C7 witness: the uniqueness theorem applied to two identical "admin"
create requests against an initially empty table. -/
theorem C7_login_uniqueness_witness :
    agentsCreatePOST none none none (fun p => p) (fun _ => "") [c7Row] c7Input "id2" 1 =
      ([c7Row], .badRequest (agentErrors [c7Row] c7Input)) ∧
    ("login", "Login already exists") ∈ agentErrors [c7Row] c7Input ∧
    hasKey (agentErrors [c7Row] c7Input) "login" = true ∧
    [c7Row].countP (fun a => a.login == some (jsTrim "admin")) = 1 :=
  C7_login_uniqueness none none none none none none (fun p => p) (fun _ => "")
    [] [c7Row] c7Input c7Input "id1" "id2" 0 1 "admin" "admin" c7Row
    rfl rfl (by decide) rfl (by decide) (by intro a ha; simp at ha) (by decide)

theorem any_if_singleton {c : Prop} [Decidable c] (y : String × String)
    (f : String × String → Bool) :
    ((if c then [y] else []).any f) = (decide c && f y) := by
  by_cases hc : c <;> simp [hc]

theorem leadNameRes_err (i : LeadInput) :
    (leadNameRes i).2.2.2 =
      if truthy i.name then []
      else if truthy i.firstName && truthy i.lastName then []
      else [("name", "Name is required (use \"name\" or \"firstName\" + \"lastName\")")] := by
  unfold leadNameRes
  by_cases h1 : truthy i.name = true
  · simp [h1]
  · by_cases h2 : (truthy i.firstName && truthy i.lastName) = true <;> simp [h1, h2]

theorem any_nameErr (i : LeadInput) (f : String × String → Bool) :
    ((leadNameRes i).2.2.2.any f) =
      (!truthy i.name && !(truthy i.firstName && truthy i.lastName) &&
        f ("name", "Name is required (use \"name\" or \"firstName\" + \"lastName\")")) := by
  rw [leadNameRes_err]
  by_cases h1 : truthy i.name = true
  · simp [h1]
  · by_cases h2 : (truthy i.firstName && truthy i.lastName) = true <;> simp [h1, h2]

/-- C8: lead validation accumulates every failure and short-circuits
persistence. The error mapping carries an entry for a field precisely when
that field fails its rule — each of the six keys independently of the others,
so multiple failures are always reported simultaneously and never only the
first; any failure returns bad request with the full mapping and leaves the
table unchanged, and only an empty mapping inserts; in particular a request
with no contacts, no telegram and no phone fails with an entry on the
contacts field and persists nothing. -/
theorem C8_validation_accumulates (table : List LeadRow) (i : LeadInput)
    (newId : String) (now : Nat) :
    (hasKey (leadErrors i) "source" = true ↔
      (truthy i.source = false ∨ jsTrim (i.source.getD "") = "")) ∧
    (hasKey (leadErrors i) "name" = true ↔
      (truthy i.name = false ∧ (truthy i.firstName && truthy i.lastName) = false)) ∧
    (hasKey (leadErrors i) "firstName" = true ↔
      ((leadNameRes i).1 = "" ∨ jsTrim (leadNameRes i).1 = "")) ∧
    (hasKey (leadErrors i) "lastName" = true ↔
      ((leadNameRes i).2.1 = "" ∨ jsTrim (leadNameRes i).2.1 = "")) ∧
    (hasKey (leadErrors i) "contacts" = true ↔
      (truthy (leadContactRes i).1 = false ∧ truthy (leadContactRes i).2 = false)) ∧
    (hasKey (leadErrors i) "phone" = true ↔
      (truthy (leadContactRes i).1 = true ∧
        validatePhone ((leadContactRes i).1.getD "") = false)) ∧
    (leadErrors i ≠ [] →
      leadIntake table i newId now = (table, .badRequest (leadErrors i))) ∧
    (leadErrors i = [] →
      ∃ r, leadIntake table i newId now = (table ++ [r], .created r)) ∧
    (i.contacts = none → i.telegram = none → i.phone = none →
      leadIntake table i newId now = (table, .badRequest (leadErrors i)) ∧
      hasKey (leadErrors i) "contacts" = true) := by
  have hkeys : ∀ k : String,
      hasKey (leadErrors i) k =
        (((!truthy i.source || decide (jsTrim (i.source.getD "") = "")) &&
            (("source" : String) == k)) ||
         ((!truthy i.name && !(truthy i.firstName && truthy i.lastName)) &&
            (("name" : String) == k)) ||
         ((decide ((leadNameRes i).1 = "") || decide (jsTrim (leadNameRes i).1 = "")) &&
            (("firstName" : String) == k)) ||
         ((decide ((leadNameRes i).2.1 = "") || decide (jsTrim (leadNameRes i).2.1 = "")) &&
            (("lastName" : String) == k)) ||
         ((!truthy (leadContactRes i).1 && !truthy (leadContactRes i).2) &&
            (("contacts" : String) == k)) ||
         ((truthy (leadContactRes i).1 && !validatePhone ((leadContactRes i).1.getD "")) &&
            (("phone" : String) == k))) := by
    intro k
    unfold hasKey leadErrors
    simp only [List.any_append, any_if_singleton, any_nameErr, Bool.or_assoc]
    simp
  have intakeBad : leadErrors i ≠ [] →
      leadIntake table i newId now = (table, .badRequest (leadErrors i)) := by
    intro hne
    have hcl : createLead i newId now = .badRequest (leadErrors i) := by
      simp only [createLead]
      rw [if_pos hne]
    simp [leadIntake, hcl]
  refine ⟨?_, ?_, ?_, ?_, ?_, ?_, intakeBad, ?_, ?_⟩
  · rw [hkeys "source"]; simp
  · rw [hkeys "name"]
    simp [and_assoc]
    intro _
    cases hf : truthy i.firstName <;> simp [hf]
  · rw [hkeys "firstName"]; simp
  · rw [hkeys "lastName"]; simp
  · rw [hkeys "contacts"]; simp
  · rw [hkeys "phone"]; simp
  · intro hnil
    cases hcr : createLead i newId now with
    | badRequest e =>
        simp only [createLead] at hcr
        rw [if_neg (not_not_intro hnil)] at hcr
        cases hcr
    | created r => exact ⟨r, by simp [leadIntake, hcr]⟩
  · intro hc ht hp
    have hcr : leadContactRes i = (none, none) := by
      simp [leadContactRes, hc, ht, hp, truthy]
    have hck : hasKey (leadErrors i) "contacts" = true := by
      rw [hkeys "contacts"]
      simp [hcr, truthy]
    have hne : leadErrors i ≠ [] := by
      intro hnil
      rw [hnil] at hck
      simp [hasKey] at hck
    exact ⟨intakeBad hne, hck⟩

/-- C8 witness: the empty request (every field omitted) against the empty
table fails with entries on both source and contacts, persisting nothing. -/
theorem C8_validation_accumulates_witness :
    leadIntake [] {} "L1" 0 = ([], .badRequest (leadErrors {})) ∧
    hasKey (leadErrors {}) "source" = true ∧
    hasKey (leadErrors {}) "contacts" = true := by
  obtain ⟨hsrc, -, -, -, -, -, -, -, hlast⟩ := C8_validation_accumulates [] {} "L1" 0
  obtain ⟨hintake, hck⟩ := hlast rfl rfl rfl
  exact ⟨hintake, hsrc.mpr (Or.inl rfl), hck⟩

/-- C9: parseName distributes whitespace tokens as the spec says: no tokens
gives empty first/last and no middle name; one token becomes firstName with
empty lastName; two tokens map positionally; three or more make the first
token firstName, the last token lastName, and the interior tokens joined by
single spaces the middleName (none if that join is empty). -/
theorem C9_parseName_cases (s : String) :
    (wsTokens s = [] → parseName s = { firstName := "", lastName := "" }) ∧
    ((wsTokens s).length = 1 →
      parseName s = { firstName := (wsTokens s).headD "", lastName := "" }) ∧
    ((wsTokens s).length = 2 →
      parseName s =
        { firstName := (wsTokens s).headD "", lastName := (wsTokens s).getLastD "" }) ∧
    (3 ≤ (wsTokens s).length →
      parseName s =
        { firstName := (wsTokens s).headD "", lastName := (wsTokens s).getLastD "",
          middleName :=
            if joinSpace (((wsTokens s).drop 1).dropLast) = "" then none
            else some (joinSpace (((wsTokens s).drop 1).dropLast)) }) := by
  rcases h : wsTokens s with _ | ⟨p, _ | ⟨q, _ | ⟨r, t⟩⟩⟩
  · refine ⟨fun _ => ?_, fun h1 => ?_, fun h2 => ?_, fun h3 => ?_⟩
    · simp [parseName, h]
    · simp at h1
    · simp at h2
    · simp at h3
  · refine ⟨fun h0 => ?_, fun _ => ?_, fun h2 => ?_, fun h3 => ?_⟩
    · simp at h0
    · simp [parseName, h]
    · simp at h2
    · simp at h3
  · refine ⟨fun h0 => ?_, fun h1 => ?_, fun _ => ?_, fun h3 => ?_⟩
    · simp at h0
    · simp at h1
    · simp [parseName, h]
    · simp at h3
  · refine ⟨fun h0 => ?_, fun h1 => ?_, fun h2 => ?_, fun _ => ?_⟩
    · simp at h0
    · simp at h1
    · simp at h2
    · simp [parseName, h, List.getLastD_cons]

/-- C9 witness: the case theorem applied at one-, two- and three-token
names. -/
theorem C9_parseName_cases_witness :
    parseName "Анна" = { firstName := "Анна", lastName := "" } ∧
    parseName "Анна Ли" = { firstName := "Анна", lastName := "Ли" } ∧
    parseName "Иван Иванович Иванов" =
      { firstName := "Иван", lastName := "Иванов", middleName := some "Иванович" } := by
  refine ⟨?_, ?_, ?_⟩
  · rw [(C9_parseName_cases "Анна").2.1 (by decide)]
    decide
  · rw [(C9_parseName_cases "Анна Ли").2.2.1 (by decide)]
    decide
  · rw [(C9_parseName_cases "Иван Иванович Иванов").2.2.2 (by decide)]
    decide

/-- C10: every camelCase projection (lead, agent, session) passes its
required columns through unchanged and omits each optional column exactly
when the stored value is NULL or the empty string (so an empty string on
file is indistinguishable on the wire from an absent value); a present
projected value always equals the stored non-empty value. -/
theorem C10_projection_omits_empty (parse : String → Option (List String))
    (lr : LeadRow) (ar : AgentRow) (sr : SessionRow) :
    ((Lead.toCamelCase lr).id = lr.id ∧
     (Lead.toCamelCase lr).source = lr.source ∧
     (Lead.toCamelCase lr).firstName = lr.first_name ∧
     (Lead.toCamelCase lr).lastName = lr.last_name ∧
     (Lead.toCamelCase lr).status = lr.status ∧
     (Lead.toCamelCase lr).createdAt = lr.created_at ∧
     (Lead.toCamelCase lr).updatedAt = lr.updated_at ∧
     OmitsEmpty lr.middle_name (Lead.toCamelCase lr).middleName ∧
     OmitsEmpty lr.phone (Lead.toCamelCase lr).phone ∧
     OmitsEmpty lr.telegram (Lead.toCamelCase lr).telegram ∧
     OmitsEmpty lr.email (Lead.toCamelCase lr).email ∧
     OmitsEmpty lr.preferred_time (Lead.toCamelCase lr).preferredTime ∧
     OmitsEmpty lr.comment (Lead.toCamelCase lr).comment ∧
     OmitsEmpty lr.id_agent (Lead.toCamelCase lr).idAgent) ∧
    ((Agent.toCamelCase parse ar).id = ar.id ∧
     (Agent.toCamelCase parse ar).firstName = ar.first_name ∧
     (Agent.toCamelCase parse ar).lastName = ar.last_name ∧
     (Agent.toCamelCase parse ar).phone = ar.phone ∧
     (Agent.toCamelCase parse ar).createdAt = ar.created_at ∧
     (Agent.toCamelCase parse ar).updatedAt = ar.updated_at ∧
     OmitsEmpty ar.middle_name (Agent.toCamelCase parse ar).middleName ∧
     OmitsEmpty ar.email (Agent.toCamelCase parse ar).email ∧
     OmitsEmpty ar.login (Agent.toCamelCase parse ar).login ∧
     OmitsEmpty ar.website (Agent.toCamelCase parse ar).website ∧
     OmitsEmpty ar.telegram_channel (Agent.toCamelCase parse ar).telegramChannel ∧
     OmitsEmpty ar.telegram_bot (Agent.toCamelCase parse ar).telegramBot ∧
     OmitsEmpty ar.city (Agent.toCamelCase parse ar).city ∧
     OmitsEmpty ar.bank_details (Agent.toCamelCase parse ar).bankDetails ∧
     ((Agent.toCamelCase parse ar).referralLinks = none ↔
       ar.referral_links = none ∨ ar.referral_links = some "")) ∧
    ((Session.toCamelCase sr).id = sr.id ∧
     (Session.toCamelCase sr).idAgent = sr.id_agent ∧
     (Session.toCamelCase sr).status = sr.status ∧
     (Session.toCamelCase sr).createdAt = sr.created_at ∧
     (Session.toCamelCase sr).updatedAt = sr.updated_at ∧
     OmitsEmpty sr.id_lead (Session.toCamelCase sr).idLead ∧
     OmitsEmpty sr.context_ai (Session.toCamelCase sr).contextAi ∧
     OmitsEmpty sr.ai_response (Session.toCamelCase sr).aiResponse) := by
  refine ⟨⟨rfl, rfl, rfl, rfl, rfl, rfl, rfl,
      orUndefined_omits _, orUndefined_omits _, orUndefined_omits _, orUndefined_omits _,
      orUndefined_omits _, orUndefined_omits _, orUndefined_omits _⟩,
    ⟨rfl, rfl, rfl, rfl, rfl, rfl,
      orUndefined_omits _, orUndefined_omits _, orUndefined_omits _, orUndefined_omits _,
      orUndefined_omits _, orUndefined_omits _, orUndefined_omits _, orUndefined_omits _, ?_⟩,
    ⟨rfl, rfl, rfl, rfl, rfl,
      orUndefined_omits _, orUndefined_omits _, orUndefined_omits _⟩⟩
  cases h : ar.referral_links with
  | none => simp [Agent.toCamelCase, h]
  | some s =>
      by_cases hs : s = "" <;> simp [Agent.toCamelCase, h, hs]

/-- C10 witness: the projection theorem applied to concrete rows, using both
dischargeable directions (an empty-string middle name is omitted, a present
telegram value is the stored one). -/
theorem C10_projection_omits_empty_witness :
    (Lead.toCamelCase c10Lead).middleName = none ∧
    (c10Lead.telegram = some "@x" ∧ "@x" ≠ "") ∧
    (Agent.toCamelCase (fun _ => none) c10Agent).referralLinks = none := by
  obtain ⟨⟨-, -, -, -, -, -, -, hmid, -, htg, -, -, -, -⟩,
      ⟨-, -, -, -, -, -, -, -, -, -, -, -, -, -, hrl⟩, -⟩ :=
    C10_projection_omits_empty (fun _ => none) c10Lead c10Agent c10Session
  exact ⟨hmid.1.mpr (Or.inr rfl), htg.2 "@x" rfl, hrl.mpr (Or.inr rfl)⟩

end IPB
